import Mathlib

/-!
Verification development for transformer_engine/pytorch/transformer.py.

The file shallowly embeds the pure control-flow and state logic of the
module: stochastic depth (DropPath), the reference attention module
(UnfusedDotProductAttention), the fast attention wrapper (FlashAttention),
the dispatcher (DotProductAttention), the multi-head block with its
inference KV cache (MultiHeadAttention), and the fused/unfused
bias-dropout-residual routing of TransformerLayer.

Conventions of the embedding:
* Python exceptions and failed assertions become `Except String`.
* Machine floats that only flow through the logic (dropout rates, norm
  factors) are modelled as rationals; `math.sqrt` is an explicit function
  parameter since only its value is threaded through, never recomputed.
* Opaque collaborators (the flash kernel, projections, the MLP, layer
  norms, the fused bias-dropout-add kernels, `torch` dropout) are
  function parameters with the same argument flow as in the source.
* An environment variable read such as `int(os.getenv("NVTE_FLASH_ATTN",
  "1"))` is a parameter holding the parsed integer; Python truthiness of
  an integer is `!= 0`.
* Tensors that only matter through their metadata carry `dtype`,
  `is_cuda` and an opaque payload.  The KV-cache tensors carry their two
  leading (sequence, batch) dimensions explicitly and fold the trailing
  (heads, head_dim) dimensions into the payload type.
-/

deriving instance DecidableEq for Except

/-- Torch dtypes that the dispatch logic inspects. -/
inductive DType
  | float16
  | bfloat16
  | float32
  | float64
  | bool
deriving DecidableEq, Repr

/-- A tensor as seen by the dispatch logic: dtype, device residency and an
opaque payload standing for the numeric contents. -/
structure Tensor (α : Type) where
  dtype : DType
  is_cuda : Bool
  data : α
deriving DecidableEq, Repr

/-- Modelled from the spec: `AttnMaskTypes` of
transformer_engine.pytorch.constants is not under src/; the configuration
surface of the spec lists the mask kinds causal and padding. -/
def AttnMaskTypes : List String := ["causal", "padding"]

/-- Modelled from the spec: `AttnTypes` of
transformer_engine.pytorch.constants is not under src/; the spec lists
the attention variants self and cross. -/
def AttnTypes : List String := ["self", "cross"]

/-- Modelled from the spec: `LayerTypes` of
transformer_engine.pytorch.constants is not under src/; the spec lists
the layer types encoder and decoder. -/
def LayerTypes : List String := ["encoder", "decoder"]

/-- Modelled from the spec: the helper `divide` of
transformer_engine.pytorch.utils is not under src/.  Per the partition
invariant of the spec and error taxonomy it asserts even divisibility (a
fatal contract violation otherwise) and returns the quotient. -/
def divide (numerator denominator : Nat) : Except String Nat :=
  if numerator % denominator = 0 then
    Except.ok (numerator / denominator)
  else
    Except.error ("divide: numerator not evenly divisible by denominator")

/-- State of `UnfusedDotProductAttention` after `__init__` (transformer.py
lines 79-108).  The `FusedScaleMaskSoftmax` collaborator is external; the
arguments handed to it are recorded, in particular its scale argument
`layer_number if apply_query_key_layer_scaling else None`. -/
structure UnfusedDotProductAttention where
  norm_factor : ℚ
  attn_mask_type : String
  attention_softmax_in_fp32 : Bool
  softmax_scale : Option Int
  attention_dropout : ℚ
deriving DecidableEq, Repr

/-- `UnfusedDotProductAttention.__init__`: asserts the mask kind is
supported, then records the configuration. -/
def UnfusedDotProductAttention.init (norm_factor : ℚ) (attention_dropout : ℚ)
    (layer_number : Option Int) (apply_query_key_layer_scaling : Bool)
    (attention_softmax_in_fp32 : Bool) (attn_mask_type : String) :
    Except String UnfusedDotProductAttention :=
  if AttnMaskTypes.contains attn_mask_type then
    Except.ok
      { norm_factor := norm_factor
        attn_mask_type := attn_mask_type
        attention_softmax_in_fp32 := attention_softmax_in_fp32
        softmax_scale := if apply_query_key_layer_scaling then layer_number else none
        attention_dropout := attention_dropout }
  else
    Except.error ("assert failed: attn_mask_type not supported")

/-- State of `FlashAttention` after `__init__` (transformer.py lines
202-232). -/
structure FlashAttention where
  attn_causal_mask : Bool
  norm_factor : ℚ
  attention_dropout : ℚ
  layer_number : Option Int
  apply_query_key_layer_scaling : Bool
deriving DecidableEq, Repr

/-- `FlashAttention.__init__`: raises unless the installed flash-attn
version string contains "dev" (modelled by the boolean result of that
containment test on the environment-provided version string), then
asserts a causal mask kind and fp32 softmax. -/
def FlashAttention.init (flash_attn_version_has_dev : Bool) (norm_factor : ℚ)
    (attention_dropout : ℚ) (layer_number : Option Int)
    (apply_query_key_layer_scaling : Bool) (attention_softmax_in_fp32 : Bool)
    (attn_mask_type : String) : Except String FlashAttention :=
  if !flash_attn_version_has_dev then
    Except.error ("ImportError: please install the correct version of flash-attn")
  else if !(attn_mask_type == "causal") then
    Except.error ("FlashAttention currently only supports causal attention mask.")
  else if !attention_softmax_in_fp32 then
    Except.error ("FlashAttention currently only supports softmax compute in fp32.")
  else
    Except.ok
      { attn_causal_mask := attn_mask_type == "causal"
        norm_factor := norm_factor
        attention_dropout := attention_dropout
        layer_number := layer_number
        apply_query_key_layer_scaling := apply_query_key_layer_scaling }

/-- `FlashAttention.forward` (transformer.py lines 234-282): the three
dtype/device/mask preconditions, then the call into the opaque
`flash_attn_unpadded_func` kernel with dropout zeroed outside training,
scale `1/norm_factor`, and the causal flag.  The packing of (seq, batch)
into the variable-length kernel layout is carried by the opaque
payloads. -/
def FlashAttention.forward {α β : Type} (self : FlashAttention)
    (flash_attn_unpadded_func : Tensor α → Tensor α → Tensor α → ℚ → ℚ → Bool → β)
    (training : Bool) (query_layer key_layer value_layer : Tensor α)
    (attention_mask : Option (Tensor α)) : Except String β :=
  if !([DType.float16, DType.bfloat16].contains query_layer.dtype
      && [DType.float16, DType.bfloat16].contains key_layer.dtype
      && [DType.float16, DType.bfloat16].contains value_layer.dtype) then
    Except.error ("FlashAttention currently only supports FP16 and BF16.")
  else if !(query_layer.is_cuda && key_layer.is_cuda && value_layer.is_cuda) then
    Except.error ("FlashAttention currently only supports CUDA tensors.")
  else if attention_mask.isSome then
    Except.error ("FlashAttention currently does not support external attention mask.")
  else
    Except.ok (flash_attn_unpadded_func query_layer key_layer value_layer
      (if training then self.attention_dropout else 0)
      (1 / self.norm_factor) self.attn_causal_mask)

/-- State of `DotProductAttention` after `__init__` (transformer.py lines
328-392). -/
structure DotProductAttention where
  apply_query_key_layer_scaling : Bool
  attention_softmax_in_fp32 : Bool
  layer_number : Option Int
  hidden_size_per_partition : Nat
  hidden_size_per_attention_head : Nat
  norm_factor : ℚ
  norm_factor_flash_attn : ℚ
  use_flash_attention : Bool
  flash_attention : Option FlashAttention
  unfused_attention : UnfusedDotProductAttention
deriving DecidableEq, Repr

/-- Lines 344-347 of `DotProductAttention.__init__`, the layer-number
clamp: `None` stays `None`, otherwise `max(1, layer_number)`. -/
def normalized_layer_number (layer_number : Option Int) : Option Int :=
  match layer_number with
  | none => none
  | some n => some (max 1 n)

/-- Lines 344-345 of `DotProductAttention.__init__`: an absent layer
number forces query-key layer scaling off. -/
def normalized_apply_scaling (layer_number : Option Int)
    (apply_query_key_layer_scaling : Bool) : Bool :=
  match layer_number with
  | none => false
  | some _ => apply_query_key_layer_scaling

/-- `DotProductAttention.__init__`: layer-number normalisation (None
forces scaling off, otherwise clamp to at least 1), scaling forces fp32
softmax, the two divisibility checks, the norm factor (multiplied by the
clamped layer number under scaling, while the flash norm factor is kept
unscaled), the static `use_flash_attention` gate, and the module builds:
`FlashAttention` only under the gate, `UnfusedDotProductAttention`
always.  `tp_size` is the resolved tensor-parallel world size (the
source substitutes the world size of the group when one is given). -/
def DotProductAttention.init (nvte_flash_attn : Int)
    (flash_attn_version_has_dev : Bool) (sqrt : Nat → ℚ)
    (num_attention_heads kv_channels : Nat) (attention_dropout : ℚ)
    (layer_number : Option Int) (apply_query_key_layer_scaling : Bool)
    (attention_softmax_in_fp32 : Bool) (attn_mask_type : String)
    (tp_size : Nat) : Except String DotProductAttention :=
  let layer_number2 : Option Int := normalized_layer_number layer_number
  let apply_scaling : Bool :=
    normalized_apply_scaling layer_number apply_query_key_layer_scaling
  let softmax_fp32 : Bool := if apply_scaling then true else attention_softmax_in_fp32
  let projection_size := kv_channels * num_attention_heads
  match divide projection_size tp_size with
  | Except.error e => Except.error e
  | Except.ok hidden_size_per_partition =>
  match divide projection_size num_attention_heads with
  | Except.error e => Except.error e
  | Except.ok hidden_size_per_attention_head =>
  let norm_factor0 := sqrt hidden_size_per_attention_head
  let norm_factor_flash_attn := norm_factor0
  let norm_factor : ℚ :=
    if apply_scaling then
      match layer_number2 with
      | some n => norm_factor0 * (n : ℚ)
      | none => norm_factor0
    else norm_factor0
  let use_flash_attention : Bool :=
    (nvte_flash_attn != 0) && softmax_fp32 && (attn_mask_type == "causal")
      && !apply_scaling
  match (if use_flash_attention then
          Except.map some (FlashAttention.init flash_attn_version_has_dev
            norm_factor_flash_attn attention_dropout layer_number2 apply_scaling
            softmax_fp32 attn_mask_type)
        else Except.ok none) with
  | Except.error e => Except.error e
  | Except.ok flash_attention =>
  match UnfusedDotProductAttention.init norm_factor attention_dropout
      layer_number2 apply_scaling softmax_fp32 attn_mask_type with
  | Except.error e => Except.error e
  | Except.ok unfused_attention =>
    Except.ok
      { apply_query_key_layer_scaling := apply_scaling
        attention_softmax_in_fp32 := softmax_fp32
        layer_number := layer_number2
        hidden_size_per_partition := hidden_size_per_partition
        hidden_size_per_attention_head := hidden_size_per_attention_head
        norm_factor := norm_factor
        norm_factor_flash_attn := norm_factor_flash_attn
        use_flash_attention := use_flash_attention
        flash_attention := flash_attention
        unfused_attention := unfused_attention }

/-- Modelled from the spec: `checkpoint` of
transformer_engine.pytorch.distributed is not under src/.  Per the spec,
checkpointed and non-checkpointed execution produce identical forward
values (the wrapper only discards activations and replays the call with
restored random state during backward), so on forward values
`_checkpointed_attention_forward` applies the wrapped attention function
to its arguments. -/
def checkpointed_attention_forward {γ β : Type} (attention_func : γ → β)
    (forward_args : γ) : β :=
  attention_func forward_args

/-- `DotProductAttention.forward` (transformer.py lines 414-474): the
per-call dynamic gate zeroes the static flash preference when an
explicit mask is supplied or any of query/key/value is not fp16/bf16,
then dispatches to the flash module (without mask) or the unfused module
(with the mask), each optionally under the checkpoint wrapper. -/
def DotProductAttention.forward {α β : Type} (self_use_flash_attention : Bool)
    (flash_attention unfused_attention :
      Tensor α → Tensor α → Tensor α → Option (Tensor α) → β)
    (query_layer key_layer value_layer : Tensor α)
    (attention_mask : Option (Tensor α))
    (checkpoint_core_attention : Bool) : β :=
  let use_flash_attention : Bool :=
    if attention_mask.isSome
        || !([DType.bfloat16, DType.float16].contains query_layer.dtype)
        || !([DType.bfloat16, DType.float16].contains key_layer.dtype)
        || !([DType.bfloat16, DType.float16].contains value_layer.dtype) then
      false
    else self_use_flash_attention
  if use_flash_attention then
    if checkpoint_core_attention then
      checkpointed_attention_forward
        (fun args => flash_attention args.1 args.2.1 args.2.2 none)
        (query_layer, (key_layer, value_layer))
    else
      flash_attention query_layer key_layer value_layer none
  else
    if checkpoint_core_attention then
      checkpointed_attention_forward
        (fun args => unfused_attention args.1 args.2.1 args.2.2.1 args.2.2.2)
        (query_layer, (key_layer, (value_layer, attention_mask)))
    else
      unfused_attention query_layer key_layer value_layer attention_mask

/-- The value `MultiHeadAttention.__init__` stores in `self.layer_number`
(transformer.py line 509): a one-element Python tuple, distinguished here
from the bare layer number and from Python `None`. -/
inductive PyLayerNumber
  | pynone
  | pyint (n : Int)
  | pytuple (layer_number : Option Int)
deriving DecidableEq, Repr

/-- Python truthiness of `x is not None` for the stored layer-number
value. -/
def PyLayerNumber.is_not_none : PyLayerNumber → Bool
  | PyLayerNumber.pynone => false
  | _ => true

/-- A tensor whose two leading (sequence, batch) dimensions the KV-cache
logic indexes; `size0`/`size1` mirror torch `size(0)`/`size(1)` and the
trailing (heads, head_dim) dimensions are folded into `α`. -/
structure TensorSB (α : Type) where
  size0 : Nat
  size1 : Nat
  data : Nat → Nat → α

/-- In-place slice assignment
`mem[s0:s1, b0:b1, ...] = src` on the two leading dimensions. -/
def slice_assign {α : Type} (mem : TensorSB α) (s0 s1 b0 b1 : Nat)
    (src : TensorSB α) : TensorSB α :=
  { mem with
    data := fun s b =>
      if s0 ≤ s ∧ s < s1 ∧ b0 ≤ b ∧ b < b1 then src.data (s - s0) (b - b0)
      else mem.data s b }

/-- The read-back view `mem[:s_end, b0:b1, ...]`. -/
def slice_view {α : Type} (mem : TensorSB α) (s_end b0 b1 : Nat) : TensorSB α :=
  { size0 := s_end
    size1 := b1 - b0
    data := fun s b => mem.data s (b0 + b) }

/-- The caller-owned inference session object (spec section 6): maximum
allocation bounds, tracked offsets, and the per-layer key/value buffer
dictionary keyed by the stored layer-number value. -/
structure InferenceParams (α : Type) where
  max_sequence_len : Nat
  max_batch_size : Nat
  sequence_len_offset : Nat
  batch_size_offset : Nat
  key_value_memory_dict : List (PyLayerNumber × (TensorSB α × TensorSB α))

/-- Python dict lookup `d[k]` (as an option), first match on the key. -/
def kv_dict_lookup {α : Type} (k : PyLayerNumber)
    (d : List (PyLayerNumber × (TensorSB α × TensorSB α))) :
    Option (TensorSB α × TensorSB α) :=
  match d.find? (fun p => p.1 == k) with
  | none => none
  | some p => some p.2

/-- Python dict assignment `d[k] = v`: replace the existing binding or
append a new one. -/
def kv_dict_insert {α : Type} (k : PyLayerNumber)
    (v : TensorSB α × TensorSB α)
    (d : List (PyLayerNumber × (TensorSB α × TensorSB α))) :
    List (PyLayerNumber × (TensorSB α × TensorSB α)) :=
  if (d.find? (fun p => p.1 == k)).isSome then
    d.map (fun p => if p.1 == k then (k, v) else p)
  else
    d ++ [(k, v)]

/-- `MultiHeadAttention._allocate_memory` (transformer.py lines 628-638):
a fresh uninitialised buffer of the declared session bounds;
`torch.empty` leaves the contents arbitrary, modelled by the
environment-provided `empty_data`. -/
def MultiHeadAttention.allocate_memory {α : Type} (empty_data : Nat → Nat → α)
    (inference_max_sequence_len batch_size : Nat) : TensorSB α :=
  { size0 := inference_max_sequence_len
    size1 := batch_size
    data := empty_data }

/-- The "adjust key and value for inference" section of
`MultiHeadAttention.forward` (transformer.py lines 761-778): both bounds
assertions run before either buffer is written; on success the new
key/value slices are copied in at the tracked offsets and the
`[:sequence_end, batch_start:batch_end]` views of the updated buffers
are returned as the effective key/value.  On a failed assertion the
error is returned with no updated buffer (the source raises before any
mutation). -/
def adjust_key_value_for_inference {α : Type}
    (sequence_len_offset batch_size_offset : Nat)
    (inference_key_memory inference_value_memory : TensorSB α)
    (key_layer value_layer : TensorSB α) :
    Except String (TensorSB α × TensorSB α × TensorSB α × TensorSB α) :=
  let batch_start := batch_size_offset
  let batch_end := batch_start + key_layer.size1
  if batch_end ≤ inference_key_memory.size1 then
    let sequence_start := sequence_len_offset
    let sequence_end := sequence_start + key_layer.size0
    if sequence_end ≤ inference_key_memory.size0 then
      let inference_key_memory2 := slice_assign inference_key_memory
        sequence_start sequence_end batch_start batch_end key_layer
      let inference_value_memory2 := slice_assign inference_value_memory
        sequence_start sequence_end batch_start batch_end value_layer
      Except.ok (inference_key_memory2, inference_value_memory2,
        slice_view inference_key_memory2 sequence_end batch_start batch_end,
        slice_view inference_value_memory2 sequence_end batch_start batch_end)
    else
      Except.error ("assert failed: sequence_end <= inference_key_memory.size(0)")
  else
    Except.error ("assert failed: batch_end <= inference_key_memory.size(1)")

/-- The guard of both KV-cache sections of `MultiHeadAttention.forward`
(transformer.py lines 665 and 761):
`inference_params and self.layer_number is not None`, with an absent or
falsy session modelled as `none`. -/
def MultiHeadAttention.kv_cache_gate {α : Type}
    (inference_params : Option (InferenceParams α))
    (layer_number : PyLayerNumber) : Bool :=
  inference_params.isSome && layer_number.is_not_none

/-- The KV-cache path of `MultiHeadAttention.forward` (transformer.py
lines 665-683 and 761-778): under the gate, fetch or lazily allocate the
per-layer buffers in the session dictionary (keyed by the stored
layer-number value), run the bounds-checked slice update, and return the
session (whose dictionary now holds the mutated buffers) together with
the effective key/value for this call.  Outside the gate the freshly
projected key/value pass through unchanged. -/
def MultiHeadAttention.kv_cache_forward {α : Type}
    (empty_data : Nat → Nat → α) (layer_number : PyLayerNumber)
    (inference_params : Option (InferenceParams α))
    (key_layer value_layer : TensorSB α) :
    Except String (Option (InferenceParams α) × TensorSB α × TensorSB α) :=
  match inference_params with
  | none => Except.ok (none, key_layer, value_layer)
  | some ip =>
    if layer_number.is_not_none then
      let fetched :=
        match kv_dict_lookup layer_number ip.key_value_memory_dict with
        | none =>
          let inference_key_memory := MultiHeadAttention.allocate_memory
            empty_data ip.max_sequence_len ip.max_batch_size
          let inference_value_memory := MultiHeadAttention.allocate_memory
            empty_data ip.max_sequence_len ip.max_batch_size
          (inference_key_memory, inference_value_memory,
            kv_dict_insert layer_number
              (inference_key_memory, inference_value_memory)
              ip.key_value_memory_dict)
        | some kv => (kv.1, kv.2, ip.key_value_memory_dict)
      match adjust_key_value_for_inference ip.sequence_len_offset
          ip.batch_size_offset fetched.1 fetched.2.1 key_layer value_layer with
      | Except.error e => Except.error e
      | Except.ok (km2, vm2, key_eff, value_eff) =>
        Except.ok (some { ip with
            key_value_memory_dict := kv_dict_insert layer_number (km2, vm2)
              fetched.2.2 },
          key_eff, value_eff)
    else
      Except.ok (some ip, key_layer, value_layer)

/-- State of `MultiHeadAttention` after `__init__` (transformer.py lines
482-625) as far as the claims inspect it; the projection collaborators
(`Linear`, `LayerNormLinear`) are external and not recorded. -/
structure MultiHeadAttention where
  layer_number : PyLayerNumber
  attention_type : String
  hidden_size_per_attention_head : Nat
  num_attention_heads_per_partition : Nat
  core_attention : DotProductAttention
deriving DecidableEq, Repr

/-- `MultiHeadAttention.__init__`: stores the layer number as a
one-element tuple, asserts a supported attention type, divides the head
count by the resolved tensor-parallel world size, and constructs the
`DotProductAttention` dispatcher (which performs the projection-size
division). -/
def MultiHeadAttention.init (nvte_flash_attn : Int)
    (flash_attn_version_has_dev : Bool) (sqrt : Nat → ℚ)
    (hidden_size num_attention_heads kv_channels : Nat)
    (attention_dropout : ℚ) (layer_number : Option Int)
    (apply_query_key_layer_scaling attention_softmax_in_fp32 : Bool)
    (attn_mask_type : String) (tp_size : Nat) (attention_type : String) :
    Except String MultiHeadAttention :=
  if !(AttnTypes.contains attention_type) then
    Except.error ("assert failed: attention_type not supported")
  else
    match divide num_attention_heads tp_size with
    | Except.error e => Except.error e
    | Except.ok num_attention_heads_per_partition =>
      match DotProductAttention.init nvte_flash_attn flash_attn_version_has_dev
          sqrt num_attention_heads kv_channels attention_dropout layer_number
          apply_query_key_layer_scaling attention_softmax_in_fp32
          attn_mask_type tp_size with
      | Except.error e => Except.error e
      | Except.ok core_attention =>
        Except.ok
          { layer_number := PyLayerNumber.pytuple layer_number
            attention_type := attention_type
            hidden_size_per_attention_head := kv_channels
            num_attention_heads_per_partition := num_attention_heads_per_partition
            core_attention := core_attention }

/-- `DropPath.forward` (transformer.py lines 58-71) on a tensor whose
first (per-sample) dimension is the outer list: with a zero drop
probability or outside training the input is returned unchanged;
otherwise each sample row is divided by the keep probability and
multiplied by the binarised (floored) per-sample random draw. -/
def DropPath.forward (drop_prob : ℚ) (training : Bool) (rand : Nat → ℚ)
    (hidden_state : List (List ℚ)) : List (List ℚ) :=
  if drop_prob == 0 || !training then hidden_state
  else
    let keep_prob : ℚ := 1 - drop_prob
    hidden_state.mapIdx (fun i row =>
      let random_tensor : ℚ := ((keep_prob + rand i).floor : ℤ)
      row.map (fun x => x / keep_prob * random_tensor))

/-- State of `TransformerLayer` after `__init__` (transformer.py lines
911-1069) as far as the forward routing inspects it; the attention
blocks, MLP and layer norm are external collaborators of `forward`. -/
structure TransformerLayer (T : Type) where
  bias_dropout_fusion : Bool
  layer_number : Option Int
  output_layernorm : Bool
  layer_type : String
  apply_residual_connection_post_layernorm : Bool
  hidden_dropout : ℚ
  drop_path : Option (T → T)

/-- `TransformerLayer.__init__` routing state: the env-gated fusion
toggle, the three construction-time assertions, and the stochastic-depth
module `DropPath(drop_path_rate) if drop_path_rate > 0.0 else None`
(line 1043), with the forward of the constructed module modelled by
`drop_path_forward drop_path_rate`. -/
def TransformerLayer.init (T : Type) (nvte_bias_dropout_fusion : Int)
    (layer_number : Option Int) (self_attn_mask_type : String)
    (apply_residual_connection_post_layernorm output_layernorm : Bool)
    (layer_type : String) (drop_path_rate : ℚ)
    (drop_path_forward : ℚ → T → T) (hidden_dropout : ℚ)
    (fuse_qkv_params fuse_wgrad_accumulation : Bool) :
    Except String (TransformerLayer T) :=
  if !(AttnMaskTypes.contains self_attn_mask_type) then
    Except.error ("assert failed: self_attn_mask_type not supported")
  else if !(LayerTypes.contains layer_type) then
    Except.error ("assert failed: layer_type not supported")
  else if !fuse_qkv_params && fuse_wgrad_accumulation then
    Except.error ("Gradient accumulation fusion requires single QKV parameter.")
  else
    Except.ok
      { bias_dropout_fusion := nvte_bias_dropout_fusion != 0
        layer_number := layer_number
        output_layernorm := output_layernorm
        layer_type := layer_type
        apply_residual_connection_post_layernorm :=
          apply_residual_connection_post_layernorm
        hidden_dropout := hidden_dropout
        drop_path := if drop_path_rate > 0 then
            some (drop_path_forward drop_path_rate)
          else none }

/-- `TransformerLayer.forward` (transformer.py lines 1080-1222).
Collaborators are function parameters: the self/cross attention blocks
return (output, bias, layernorm_output) with the third component only
consumed under post-layernorm residual routing, matching the conditional
unpacking in the source; `dropout` is `torch.nn.functional.dropout` with
its training flag; the two fused bias-dropout-add kernels and the
unfused `get_bias_dropout_add` closure mirror lines 1152-1159.  The
`contiguous()` call is the identity on values and is omitted; the
autocast cast of line 1133 is kept explicitly. -/
def TransformerLayer.forward {T : Type} [Add T] (self : TransformerLayer T)
    (training is_autocast_enabled : Bool) (autocast_cast : T → T)
    (bias_dropout_add_fused_train : T → T → T → ℚ → T)
    (bias_dropout_add_fused_inference : T → T → T → ℚ → T)
    (get_bias_dropout_add : Bool → T → T → T → ℚ → T)
    (dropout : T → ℚ → Bool → T)
    (self_attention : T → Option (Tensor Unit) → T × T × T)
    (inter_attention : T → Option (Tensor Unit) → T → T × T × T)
    (layernorm_mlp : T → T × T × T) (layernorm : T → T)
    (hidden_states : T) (attention_mask : Option (Tensor Unit))
    (encoder_output : T) (enc_dec_attn_mask : Option (Tensor Unit)) :
    Except String T :=
  if attention_mask.any (fun m => !(m.dtype == DType.bool)) then
    Except.error ("Attention mask must be a boolean tensor")
  else
    let hidden_states2 :=
      if is_autocast_enabled then autocast_cast hidden_states else hidden_states
    let self_attention_outputs := self_attention hidden_states2 attention_mask
    let attention_output := self_attention_outputs.1
    let attention_bias := self_attention_outputs.2.1
    let residual :=
      if self.apply_residual_connection_post_layernorm && !self.output_layernorm
      then self_attention_outputs.2.2
      else hidden_states2
    let bias_dropout_add_func :=
      if self.bias_dropout_fusion then
        (if training then bias_dropout_add_fused_train
          else bias_dropout_add_fused_inference)
      else get_bias_dropout_add training
    let bda_output :=
      match self.drop_path with
      | none =>
        bias_dropout_add_func attention_output attention_bias residual
          self.hidden_dropout
      | some drop_path =>
        let out := dropout (attention_output + attention_bias)
          self.hidden_dropout training
        residual + drop_path out
    let bda_output2 :=
      if self.layer_type == "decoder" then
        let inter_attention_outputs :=
          inter_attention bda_output enc_dec_attn_mask encoder_output
        let residual2 :=
          if self.apply_residual_connection_post_layernorm
          then inter_attention_outputs.2.2
          else bda_output
        bias_dropout_add_func inter_attention_outputs.1
          inter_attention_outputs.2.1 residual2 self.hidden_dropout
      else bda_output
    let mlp_outputs := layernorm_mlp bda_output2
    let residual3 :=
      if self.apply_residual_connection_post_layernorm
      then mlp_outputs.2.2
      else bda_output2
    let output :=
      match self.drop_path with
      | none =>
        bias_dropout_add_func mlp_outputs.1 mlp_outputs.2.1 residual3
          self.hidden_dropout
      | some drop_path =>
        let out := dropout (mlp_outputs.1 + mlp_outputs.2.1)
          self.hidden_dropout training
        residual3 + drop_path out
    let output2 := if self.output_layernorm then layernorm output else output
    Except.ok output2

/-- Helper: a Python dict lookup directly after an assignment at the same
key yields the assigned value. -/
theorem kv_dict_lookup_insert {α : Type} (k : PyLayerNumber)
    (v : TensorSB α × TensorSB α)
    (d : List (PyLayerNumber × (TensorSB α × TensorSB α))) :
    kv_dict_lookup k (kv_dict_insert k v d) = some v := by
  unfold kv_dict_lookup kv_dict_insert
  induction d with
  | nil => simp [List.find?]
  | cons hd tl ih =>
    by_cases hk : hd.1 = k
    · simp [List.find?, hk]
    · have hk2 : (hd.1 == k) = false := by
        simp [hk]
      by_cases htl : (List.find? (fun p => p.1 == k) tl).isSome
      · simp only [List.find?, hk2, cond_false, htl, if_true, List.map_cons,
          if_false] at ih ⊢
        simpa [hk2, htl] using ih
      · have htl2 : (List.find? (fun p => p.1 == k) tl) = none := by
          cases hfind : List.find? (fun p => p.1 == k) tl with
          | none => rfl
          | some p => rw [hfind] at htl; simp at htl
        simp only [List.find?, hk2, cond_false, htl2] at ih ⊢
        simpa [hk2, htl2] using ih

/-- C8: the stochastic-depth operation `DropPath.forward` with drop
probability 0, or evaluated outside training mode, returns an output
identical to its input, so the residual path equals the undropped
residual path. -/
theorem c8_drop_path_noop (drop_prob : ℚ) (training : Bool) (rand : Nat → ℚ)
    (hidden_state : List (List ℚ))
    (h : drop_prob = 0 ∨ training = false) :
    DropPath.forward drop_prob training rand hidden_state = hidden_state := by
  rcases h with h | h <;> simp [DropPath.forward, h]

/-- C8 witness at a concrete tensor. -/
theorem c8_drop_path_noop_witness :
    ((0 : ℚ) = 0 ∨ (true = false))
      ∧ DropPath.forward 0 true (fun _ => 7) [[1, 2], [3]] = [[1, 2], [3]] :=
  ⟨Or.inl rfl, c8_drop_path_noop 0 true (fun _ => 7) [[1, 2], [3]] (Or.inl rfl)⟩

/-- C2: whenever an explicit attention mask is supplied, or any of the
query/key/value tensors has a dtype outside fp16/bf16, the dispatcher
takes the reference (unfused) path for that call — even when the static
preference is for the fast path and under the checkpoint wrapper — and
returns exactly what a direct call of the reference attention on the
same inputs returns. -/
theorem c2_dynamic_fallback_matches_reference {α β : Type}
    (self_use_flash_attention : Bool)
    (flash_attention unfused_attention :
      Tensor α → Tensor α → Tensor α → Option (Tensor α) → β)
    (query_layer key_layer value_layer : Tensor α)
    (attention_mask : Option (Tensor α)) (checkpoint_core_attention : Bool)
    (h : attention_mask.isSome = true
      ∨ [DType.bfloat16, DType.float16].contains query_layer.dtype = false
      ∨ [DType.bfloat16, DType.float16].contains key_layer.dtype = false
      ∨ [DType.bfloat16, DType.float16].contains value_layer.dtype = false) :
    DotProductAttention.forward self_use_flash_attention flash_attention
        unfused_attention query_layer key_layer value_layer attention_mask
        checkpoint_core_attention
      = unfused_attention query_layer key_layer value_layer attention_mask := by
  have hcond : (attention_mask.isSome
      || !([DType.bfloat16, DType.float16].contains query_layer.dtype)
      || !([DType.bfloat16, DType.float16].contains key_layer.dtype)
      || !([DType.bfloat16, DType.float16].contains value_layer.dtype)) = true := by
    rcases h with h | h | h | h
    · simp [h]
    · simp only [List.contains_cons, List.contains_nil] at h
      simp at h ⊢
      tauto
    · simp only [List.contains_cons, List.contains_nil] at h
      simp at h ⊢
      tauto
    · simp only [List.contains_cons, List.contains_nil] at h
      simp at h ⊢
      tauto
  unfold DotProductAttention.forward
  rw [hcond]
  cases checkpoint_core_attention <;> simp [checkpointed_attention_forward]

/-- C2 witness: an explicit mask with fp16 inputs and a fast-preferring
dispatcher still lands on the reference path. -/
theorem c2_witness :
    ((some (Tensor.mk DType.bool true ())).isSome = true
        ∨ [DType.bfloat16, DType.float16].contains
            (Tensor.mk (α := Unit) DType.float16 true ()).dtype = false
        ∨ [DType.bfloat16, DType.float16].contains
            (Tensor.mk (α := Unit) DType.float16 true ()).dtype = false
        ∨ [DType.bfloat16, DType.float16].contains
            (Tensor.mk (α := Unit) DType.float16 true ()).dtype = false)
      ∧ DotProductAttention.forward true
          (fun _ _ _ _ => (0 : Nat)) (fun _ _ _ _ => (1 : Nat))
          (Tensor.mk DType.float16 true ()) (Tensor.mk DType.float16 true ())
          (Tensor.mk DType.float16 true ())
          (some (Tensor.mk DType.bool true ())) false
        = (1 : Nat) :=
  ⟨Or.inl rfl,
    c2_dynamic_fallback_matches_reference true
      (fun _ _ _ _ => (0 : Nat)) (fun _ _ _ _ => (1 : Nat))
      (Tensor.mk DType.float16 true ()) (Tensor.mk DType.float16 true ())
      (Tensor.mk DType.float16 true ())
      (some (Tensor.mk DType.bool true ())) false (Or.inl rfl)⟩

/-- C6: a `FlashAttention` forward call with any of query/key/value not
fp16/bf16, or not CUDA-resident, or with an external mask supplied,
fails with a precondition error instead of returning a result; and
`FlashAttention` construction fails when the mask kind is not causal or
fp32 softmax is not enabled. -/
theorem c6_flash_preconditions :
    (∀ (α β : Type) (self : FlashAttention)
      (kernel : Tensor α → Tensor α → Tensor α → ℚ → ℚ → Bool → β)
      (training : Bool) (q k v : Tensor α) (mask : Option (Tensor α)),
      (([DType.float16, DType.bfloat16].contains q.dtype
          && [DType.float16, DType.bfloat16].contains k.dtype
          && [DType.float16, DType.bfloat16].contains v.dtype) = false
        ∨ (q.is_cuda && k.is_cuda && v.is_cuda) = false
        ∨ mask.isSome = true) →
      (FlashAttention.forward self kernel training q k v mask).isOk = false)
    ∧ (∀ (ver : Bool) (nf drop : ℚ) (ln : Option Int) (qk fp32 : Bool)
        (maskty : String),
        (¬ (maskty = "causal") ∨ fp32 = false) →
        (FlashAttention.init ver nf drop ln qk fp32 maskty).isOk = false) := by
  constructor
  · intro α β self kernel training q k v mask h
    unfold FlashAttention.forward
    split
    · rfl
    · split
      · rfl
      · split
        · rfl
        · exfalso
          rcases h with h | h | h <;> simp_all <;> tauto
  · intro ver nf drop ln qk fp32 maskty h
    unfold FlashAttention.init
    split
    · rfl
    · split
      · rfl
      · split
        · rfl
        · exfalso
          rcases h with h | h <;> simp_all

/-- C6 witness: an fp32 query fails the forward preconditions, and a
padding-mask construction fails the init assertions. -/
theorem c6_witness :
    (([DType.float16, DType.bfloat16].contains DType.float32
        && [DType.float16, DType.bfloat16].contains DType.float16
        && [DType.float16, DType.bfloat16].contains DType.float16) = false
      ∨ (true && true && true) = false
      ∨ (none : Option (Tensor Unit)).isSome = true)
    ∧ (FlashAttention.forward
        (FlashAttention.mk true 1 0 none false)
        (fun _ _ _ _ _ _ => (0 : Nat)) true
        (Tensor.mk DType.float32 true ()) (Tensor.mk DType.float16 true ())
        (Tensor.mk DType.float16 true ()) none).isOk = false
    ∧ (¬ (("padding" : String) = "causal") ∨ (true = false))
    ∧ (FlashAttention.init true 1 0 none false true ("padding")).isOk = false :=
  ⟨Or.inl (by decide),
    c6_flash_preconditions.1 Unit Nat (FlashAttention.mk true 1 0 none false)
      (fun _ _ _ _ _ _ => (0 : Nat)) true
      (Tensor.mk DType.float32 true ()) (Tensor.mk DType.float16 true ())
      (Tensor.mk DType.float16 true ()) none (Or.inl (by decide)),
    Or.inl (by decide),
    c6_flash_preconditions.2 true 1 0 none false true ("padding")
      (Or.inl (by decide))⟩

/-- C1 counterexample: with the `NVTE_FLASH_ATTN` toggle disabled (read
as 0) a `DotProductAttention` construction succeeds, yet the
FlashAttention variant is NOT instantiated — contradicting the claim
that both variants are always instantiated at construction. -/
theorem c1_dual_build_counterexample :
    (DotProductAttention.init 0 true (fun n => (n : ℚ)) 2 4 0 none false true
        ("causal") 1).map (fun c => c.flash_attention.isSome)
      = Except.ok false := by decide

/-- C1 (amended): the reference (unfused) variant is always instantiated
at construction (it is an unconditional field of every constructed
dispatcher), while the FlashAttention variant is instantiated if and
only if the static fast-path preference `use_flash_attention` is true —
so whenever the dispatcher prefers the fast path both variants already
exist and the per-call dynamic fallback never needs to construct a
variant. -/
theorem c1_flash_variant_instantiated_iff_static_gate (env : Int) (ver : Bool)
    (sqrt : Nat → ℚ) (heads kv : Nat) (dropout : ℚ) (ln : Option Int)
    (qk fp32 : Bool) (mask : String) (tp : Nat) :
    (DotProductAttention.init env ver sqrt heads kv dropout ln qk fp32 mask tp).map
        (fun c => c.flash_attention.isSome)
      = (DotProductAttention.init env ver sqrt heads kv dropout ln qk fp32 mask tp).map
        (fun c => c.use_flash_attention) := by
  unfold DotProductAttention.init
  simp only []
  cases hs : normalized_apply_scaling ln qk
  case true =>
    simp only [hs, Bool.not_true, Bool.and_false, Bool.false_eq_true, if_false]
    split
    · rfl
    split
    · rfl
    split
    · rfl
    · next unf hunf =>
      rfl
  case false =>
    simp only [hs, Bool.not_false, Bool.and_true, Bool.false_eq_true, if_false]
    split
    · rfl
    next hpp hdiv1 =>
    split
    · rfl
    next hd hdiv2 =>
    split
    · rfl
    next fa heqfa =>
    split
    · rfl
    next unf hunf =>
    simp only [Except.map]
    split at heqfa
    · next hcond =>
      cases hX : FlashAttention.init ver (sqrt hd) dropout
          (normalized_layer_number ln) false fp32 mask with
      | error e => rw [hX] at heqfa; simp [Except.map] at heqfa
      | ok f =>
        rw [hX] at heqfa
        simp only [Except.map] at heqfa
        cases heqfa
        simp [hcond]
    · next hcond =>
      cases heqfa
      simp only [Option.isSome]
      simp at hcond ⊢
      exact hcond

/-- C3: for every construction, the static fast-path preference
`use_flash_attention` is true iff the environment toggle is non-zero,
the fp32-softmax flag is set, the configured mask kind is causal, and
query-key layer scaling is (effectively) disabled — where scaling is
effectively enabled exactly when the flag is set AND a layer number is
provided, since an absent layer number forces it off.  In particular
the fast path is never a candidate when scaling is enabled. -/
theorem c3_static_gate_characterisation (env : Int) (ver : Bool)
    (sqrt : Nat → ℚ) (heads kv : Nat) (dropout : ℚ) (ln : Option Int)
    (qk fp32 : Bool) (mask : String) (tp : Nat) :
    (DotProductAttention.init env ver sqrt heads kv dropout ln qk fp32 mask tp).map
        (fun c => c.use_flash_attention)
      = (DotProductAttention.init env ver sqrt heads kv dropout ln qk fp32 mask tp).map
        (fun _ => (env != 0) && fp32 && (mask == "causal") && !(qk && ln.isSome)) := by
  have hns : (qk && ln.isSome) = normalized_apply_scaling ln qk := by
    cases ln <;> simp [normalized_apply_scaling]
  rw [hns]
  unfold DotProductAttention.init
  simp only []
  cases hs : normalized_apply_scaling ln qk
  case true =>
    simp only [hs, Bool.not_true, Bool.and_false, Bool.false_eq_true, if_false]
    split
    · rfl
    split
    · rfl
    split
    · rfl
    · rfl
  case false =>
    simp only [hs, Bool.not_false, Bool.and_true, Bool.false_eq_true, if_false]
    split
    · rfl
    split
    · rfl
    split
    · rfl
    next fa heqfa =>
    split
    · rfl
    · rfl

/-- C5: for every successful construction, an absent layer number forces
query-key layer scaling off (and leaves the norm factor at its base
value), while a provided layer number is clamped to a minimum of 1 and,
when scaling is enabled, multiplies the norm factor. -/
theorem c5_layer_number_normalisation (env : Int) (ver : Bool)
    (sqrt : Nat → ℚ) (heads kv : Nat) (dropout : ℚ) (ln : Option Int)
    (qk fp32 : Bool) (mask : String) (tp : Nat) (c : DotProductAttention)
    (h : DotProductAttention.init env ver sqrt heads kv dropout ln qk fp32 mask tp
      = Except.ok c) :
    (ln = none → c.apply_query_key_layer_scaling = false ∧ c.layer_number = none
      ∧ c.norm_factor = sqrt c.hidden_size_per_attention_head)
    ∧ (∀ n : Int, ln = some n → c.layer_number = some (max 1 n)
        ∧ (qk = true →
            c.norm_factor
              = sqrt c.hidden_size_per_attention_head * ((max 1 n : Int) : ℚ))) := by
  unfold DotProductAttention.init at h
  simp only [] at h
  split at h
  · exact absurd h (by simp)
  split at h
  · exact absurd h (by simp)
  split at h
  · exact absurd h (by simp)
  split at h
  · exact absurd h (by simp)
  next unf hunf =>
  cases h
  constructor
  · intro hln
    subst hln
    simp [normalized_apply_scaling, normalized_layer_number]
  · intro n hln
    subst hln
    constructor
    · simp [normalized_layer_number]
    · intro hqk
      subst hqk
      simp [normalized_apply_scaling, normalized_layer_number]

/-- C5 witness: layer number 0 with scaling requested is clamped to 1
and multiplies the norm factor. -/
theorem c5_layer_number_normalisation_witness :
    (DotProductAttention.init 1 true (fun n => (n : ℚ)) 2 4 0 (some 0) true false
        ("causal") 1
      = Except.ok
          (DotProductAttention.mk true true (some 1) 8 4 4 4 false none
            (UnfusedDotProductAttention.mk 4 ("causal") true (some 1) 0)))
    ∧ (DotProductAttention.mk true true (some 1) 8 4 4 4 false none
          (UnfusedDotProductAttention.mk 4 ("causal") true (some 1) 0)).layer_number
        = some (max 1 0) :=
  ⟨by
    norm_num [DotProductAttention.init, divide, normalized_layer_number,
      normalized_apply_scaling, UnfusedDotProductAttention.init, AttnMaskTypes],
    ((c5_layer_number_normalisation 1 true (fun n => (n : ℚ)) 2 4 0 (some 0)
      true false ("causal") 1 _ (by
        norm_num [DotProductAttention.init, divide, normalized_layer_number,
          normalized_apply_scaling, UnfusedDotProductAttention.init,
          AttnMaskTypes])).2 0 rfl).1⟩

/-- Helper: a successful `divide` certifies even divisibility. -/
theorem divide_ok_mod (n d q : Nat) (h : divide n d = Except.ok q) :
    n % d = 0 := by
  unfold divide at h
  split at h
  next hcond => exact hcond
  next hcond => exact absurd h (by simp)

/-- Helper: a successfully constructed dispatcher certifies that the
projection size divides evenly across the tensor-parallel partitions. -/
theorem dpa_init_ok_proj_mod (env : Int) (ver : Bool) (sqrt : Nat → ℚ)
    (heads kv : Nat) (dropout : ℚ) (ln : Option Int) (qk fp32 : Bool)
    (mask : String) (tp : Nat) (c : DotProductAttention)
    (h : DotProductAttention.init env ver sqrt heads kv dropout ln qk fp32 mask tp
      = Except.ok c) : (kv * heads) % tp = 0 := by
  unfold DotProductAttention.init at h
  simp only [] at h
  split at h
  next e heq => exact absurd h (by simp)
  next hpp heq => exact divide_ok_mod _ _ _ heq

/-- C9: constructing an attention block with a head count, or a hidden
(projection) size, not evenly divisible by the tensor-parallel partition
count fails at construction; and every successful construction certifies
both divisibility invariants. -/
theorem c9_partition_divisibility (env : Int) (ver : Bool) (sqrt : Nat → ℚ)
    (hidden heads kv : Nat) (dropout : ℚ) (ln : Option Int) (qk fp32 : Bool)
    (maskty : String) (tp : Nat) (atype : String) :
    (¬ (heads % tp = 0) →
      (MultiHeadAttention.init env ver sqrt hidden heads kv dropout ln qk fp32
          maskty tp atype).isOk = false)
    ∧ (¬ ((kv * heads) % tp = 0) →
      (MultiHeadAttention.init env ver sqrt hidden heads kv dropout ln qk fp32
          maskty tp atype).isOk = false)
    ∧ (∀ m : MultiHeadAttention,
        MultiHeadAttention.init env ver sqrt hidden heads kv dropout ln qk fp32
            maskty tp atype = Except.ok m →
        heads % tp = 0 ∧ (kv * heads) % tp = 0) := by
  refine ⟨?_, ?_, ?_⟩
  · intro h
    unfold MultiHeadAttention.init
    split
    · rfl
    · simp [divide, h, Except.isOk]
      rfl
  · intro h
    unfold MultiHeadAttention.init
    split
    · rfl
    · cases hd : divide heads tp with
      | error e => rfl
      | ok q =>
        simp only []
        cases hc : DotProductAttention.init env ver sqrt heads kv dropout ln qk
            fp32 maskty tp with
        | error e => rfl
        | ok c => exact absurd (dpa_init_ok_proj_mod _ _ _ _ _ _ _ _ _ _ _ _ hc) h
  · intro m h
    unfold MultiHeadAttention.init at h
    split at h
    · exact absurd h (by simp)
    · split at h
      · exact absurd h (by simp)
      next q hdq =>
        split at h
        · exact absurd h (by simp)
        next c hc =>
          exact ⟨divide_ok_mod _ _ _ hdq,
            dpa_init_ok_proj_mod _ _ _ _ _ _ _ _ _ _ _ _ hc⟩

/-- C9 witness: 3 heads over 2 partitions fail construction. -/
theorem c9_partition_divisibility_witness :
    ¬ ((3 : Nat) % 2 = 0)
    ∧ (MultiHeadAttention.init 1 true (fun n => (n : ℚ)) 12 3 4 0 none false true
        ("causal") 2 ("self")).isOk = false :=
  ⟨by decide,
    (c9_partition_divisibility 1 true (fun n => (n : ℚ)) 12 3 4 0 none false
      true ("causal") 2 ("self")).1 (by decide)⟩

/-- C4: on the KV-cache path, when the tracked offsets plus the new
slice fit the pre-allocated bounds the new key/value slices are written
into the buffers at exactly the tracked (sequence, batch) offsets (all
other buffer entries untouched) and the effective key/value returned is
the `[:sequence_end, batch_start:batch_end]` prefix view of the updated
buffers; when either bound is exceeded the call fails with an assertion
error, and since both checks precede the writes nothing is mutated on
the error path (the error result carries no updated buffer). -/
theorem c4_kv_cache_bounds_checked_write {α : Type} (s_off b_off : Nat)
    (km vm kl vl : TensorSB α) :
    (b_off + kl.size1 ≤ km.size1 → s_off + kl.size0 ≤ km.size0 →
      adjust_key_value_for_inference s_off b_off km vm kl vl
        = Except.ok
            (slice_assign km s_off (s_off + kl.size0) b_off (b_off + kl.size1) kl,
             slice_assign vm s_off (s_off + kl.size0) b_off (b_off + kl.size1) vl,
             slice_view
               (slice_assign km s_off (s_off + kl.size0) b_off (b_off + kl.size1) kl)
               (s_off + kl.size0) b_off (b_off + kl.size1),
             slice_view
               (slice_assign vm s_off (s_off + kl.size0) b_off (b_off + kl.size1) vl)
               (s_off + kl.size0) b_off (b_off + kl.size1))
      ∧ (∀ s b, s_off ≤ s → s < s_off + kl.size0 → b_off ≤ b →
          b < b_off + kl.size1 →
          (slice_assign km s_off (s_off + kl.size0) b_off (b_off + kl.size1)
              kl).data s b = kl.data (s - s_off) (b - b_off)
          ∧ (slice_assign vm s_off (s_off + kl.size0) b_off (b_off + kl.size1)
              vl).data s b = vl.data (s - s_off) (b - b_off))
      ∧ (∀ s b, ¬(s_off ≤ s ∧ s < s_off + kl.size0 ∧ b_off ≤ b
            ∧ b < b_off + kl.size1) →
          (slice_assign km s_off (s_off + kl.size0) b_off (b_off + kl.size1)
              kl).data s b = km.data s b
          ∧ (slice_assign vm s_off (s_off + kl.size0) b_off (b_off + kl.size1)
              vl).data s b = vm.data s b)
      ∧ (slice_view
            (slice_assign km s_off (s_off + kl.size0) b_off (b_off + kl.size1) kl)
            (s_off + kl.size0) b_off (b_off + kl.size1)).size0 = s_off + kl.size0
      ∧ (slice_view
            (slice_assign km s_off (s_off + kl.size0) b_off (b_off + kl.size1) kl)
            (s_off + kl.size0) b_off (b_off + kl.size1)).size1
          = (b_off + kl.size1) - b_off
      ∧ (∀ s b,
          (slice_view
            (slice_assign km s_off (s_off + kl.size0) b_off (b_off + kl.size1) kl)
            (s_off + kl.size0) b_off (b_off + kl.size1)).data s b
          = (slice_assign km s_off (s_off + kl.size0) b_off (b_off + kl.size1)
              kl).data s (b_off + b)))
    ∧ ((¬ (b_off + kl.size1 ≤ km.size1) ∨ ¬ (s_off + kl.size0 ≤ km.size0)) →
        (adjust_key_value_for_inference s_off b_off km vm kl vl).isOk
          = false) := by
  constructor
  · intro h1 h2
    refine ⟨?_, ?_, ?_, rfl, rfl, fun s b => rfl⟩
    · unfold adjust_key_value_for_inference
      rw [if_pos h1, if_pos h2]
    · intro s b hs1 hs2 hb1 hb2
      constructor <;>
        · simp only [slice_assign]
          rw [if_pos ⟨hs1, hs2, hb1, hb2⟩]
    · intro s b hw
      constructor <;>
        · simp only [slice_assign]
          rw [if_neg hw]
  · intro h
    rcases h with h | h
    · unfold adjust_key_value_for_inference
      rw [if_neg h]
      rfl
    · unfold adjust_key_value_for_inference
      by_cases hb : b_off + kl.size1 ≤ km.size1
      · rw [if_pos hb, if_neg h]
        rfl
      · rw [if_neg hb]
        rfl

/-- C4 witness: a 2x2 slice written at offset (0,0) into 4x4 buffers
passes the bounds check and succeeds. -/
theorem c4_kv_cache_bounds_checked_write_witness :
    ((0 : Nat) + 2 ≤ 4 ∧ (0 : Nat) + 2 ≤ 4)
    ∧ (adjust_key_value_for_inference 0 0
        (TensorSB.mk 4 4 (fun _ _ => (0 : Nat))) (TensorSB.mk 4 4 (fun _ _ => 0))
        (TensorSB.mk 2 2 (fun s b => s + 10 * b))
        (TensorSB.mk 2 2 (fun s b => s + 20 * b))).isOk = true := by
  refine ⟨⟨by decide, by decide⟩, ?_⟩
  have h := (c4_kv_cache_bounds_checked_write 0 0
      (TensorSB.mk 4 4 (fun _ _ => (0 : Nat))) (TensorSB.mk 4 4 (fun _ _ => 0))
      (TensorSB.mk 2 2 (fun s b => s + 10 * b))
      (TensorSB.mk 2 2 (fun s b => s + 20 * b))).1 (by decide) (by decide)
  rw [h.1]
  rfl

/-- C10 (implicit behaviour of the stored layer number): every
constructed `MultiHeadAttention` stores its layer number as the
one-element tuple, which is never Python `None`, so the KV-cache guard
reduces to the truthiness of the supplied inference-params session
alone; and whenever a session is supplied, the allocate/write path runs
and keys the session buffer dictionary by the tuple. -/
theorem c10_layer_number_tuple_gate :
    (∀ (env : Int) (ver : Bool) (sqrt : Nat → ℚ) (hidden heads kv : Nat)
      (dropout : ℚ) (ln : Option Int) (qk fp32 : Bool) (maskty : String)
      (tp : Nat) (atype : String) (m : MultiHeadAttention),
      MultiHeadAttention.init env ver sqrt hidden heads kv dropout ln qk fp32
          maskty tp atype = Except.ok m →
      m.layer_number = PyLayerNumber.pytuple ln
        ∧ m.layer_number.is_not_none = true)
    ∧ (∀ (α : Type) (ip : Option (InferenceParams α)) (ln : Option Int),
        MultiHeadAttention.kv_cache_gate ip (PyLayerNumber.pytuple ln)
          = ip.isSome)
    ∧ (∀ (α : Type) (empty_data : Nat → Nat → α) (ln : Option Int)
        (ip : InferenceParams α) (kl vl : TensorSB α)
        (r : Option (InferenceParams α) × TensorSB α × TensorSB α),
        MultiHeadAttention.kv_cache_forward empty_data (PyLayerNumber.pytuple ln)
            (some ip) kl vl = Except.ok r →
        r.1.any (fun ip2 => (kv_dict_lookup (PyLayerNumber.pytuple ln)
          ip2.key_value_memory_dict).isSome) = true) := by
  refine ⟨?_, ?_, ?_⟩
  · intro env ver sqrt hidden heads kv dropout ln qk fp32 maskty tp atype m h
    unfold MultiHeadAttention.init at h
    split at h
    · exact absurd h (by simp)
    · split at h
      · exact absurd h (by simp)
      · split at h
        · exact absurd h (by simp)
        · cases h
          exact ⟨rfl, rfl⟩
  · intro α ip ln
    cases ip <;>
      simp [MultiHeadAttention.kv_cache_gate, PyLayerNumber.is_not_none]
  · intro α empty_data ln ip kl vl r h
    unfold MultiHeadAttention.kv_cache_forward at h
    simp only [PyLayerNumber.is_not_none, if_true] at h
    split at h
    · exact absurd h (by simp)
    · next km2 vm2 key_eff value_eff heq =>
      cases h
      simp [Option.any, kv_dict_lookup_insert]

/-- C10 witness: a concrete construction stores the tuple key, the gate
is the truthiness of the session, and a concrete cached call keys the updated
dictionary by the tuple. -/
theorem c10_layer_number_tuple_gate_witness :
    (MultiHeadAttention.init 1 true (fun n => (n : ℚ)) 8 2 4 0 none false true
        ("causal") 1 ("self")
      = Except.ok
          (MultiHeadAttention.mk (PyLayerNumber.pytuple none) ("self") 4 2
            (DotProductAttention.mk false true none 8 4 4 4 true
              (some (FlashAttention.mk true 4 0 none false))
              (UnfusedDotProductAttention.mk 4 ("causal") true none 0))))
    ∧ (MultiHeadAttention.mk (PyLayerNumber.pytuple none) ("self") 4 2
          (DotProductAttention.mk false true none 8 4 4 4 true
            (some (FlashAttention.mk true 4 0 none false))
            (UnfusedDotProductAttention.mk 4 ("causal") true none 0))).layer_number
        = PyLayerNumber.pytuple none
    ∧ MultiHeadAttention.kv_cache_gate
        (some (InferenceParams.mk (α := Nat) 2 1 0 0 []))
        (PyLayerNumber.pytuple none)
      = (some (InferenceParams.mk (α := Nat) 2 1 0 0 [])).isSome
    ∧ ((some (InferenceParams.mk 2 1 0 0
          [(PyLayerNumber.pytuple none,
            (slice_assign (TensorSB.mk 2 1 (fun _ _ => (0 : Nat))) 0 1 0 1
               (TensorSB.mk 1 1 (fun _ _ => 5)),
             slice_assign (TensorSB.mk 2 1 (fun _ _ => (0 : Nat))) 0 1 0 1
               (TensorSB.mk 1 1 (fun _ _ => 6))))]),
        slice_view (slice_assign (TensorSB.mk 2 1 (fun _ _ => (0 : Nat))) 0 1 0 1
          (TensorSB.mk 1 1 (fun _ _ => 5))) 1 0 1,
        slice_view (slice_assign (TensorSB.mk 2 1 (fun _ _ => (0 : Nat))) 0 1 0 1
          (TensorSB.mk 1 1 (fun _ _ => 6))) 1 0 1).1.any
        (fun ip2 => (kv_dict_lookup (PyLayerNumber.pytuple none)
          ip2.key_value_memory_dict).isSome) = true) :=
  ⟨by decide,
    (c10_layer_number_tuple_gate.1 1 true (fun n => (n : ℚ)) 8 2 4 0 none false
      true ("causal") 1 ("self") _ (by decide)).1,
    c10_layer_number_tuple_gate.2.1 Nat
      (some (InferenceParams.mk 2 1 0 0 [])) none,
    c10_layer_number_tuple_gate.2.2 Nat (fun _ _ => 0) none
      (InferenceParams.mk 2 1 0 0 []) (TensorSB.mk 1 1 (fun _ _ => 5))
      (TensorSB.mk 1 1 (fun _ _ => 6)) _ rfl⟩

/-- C7: with stochastic depth configured (a positive drop-path rate
instantiates the module at construction), the self-attention and MLP
sub-blocks bypass the selected bias-dropout-add function and instead
add the bias, apply ordinary dropout, apply the drop-path scaling to
the whole sub-block output and then add the residual, while the
cross-attention sub-block of a decoder layer always goes through the
bias-dropout-add function and never through the drop-path module. -/
theorem c7_drop_path_routing :
    (∀ (T : Type) (env : Int) (ln : Option Int) (maskty : String)
      (arpl oln : Bool) (lt : String) (rate : ℚ) (dpf : ℚ → T → T)
      (hdrop : ℚ) (fq fw : Bool) (cfg : TransformerLayer T),
      0 < rate →
      TransformerLayer.init T env ln maskty arpl oln lt rate dpf hdrop fq fw
        = Except.ok cfg →
      cfg.drop_path = some (dpf rate))
    ∧ (∀ (T : Type) (inst : Add T) (self : TransformerLayer T)
        (training is_autocast : Bool) (cast : T → T)
        (bdaT bdaI : T → T → T → ℚ → T) (gbda : Bool → T → T → T → ℚ → T)
        (dropoutF : T → ℚ → Bool → T)
        (sa : T → Option (Tensor Unit) → T × T × T)
        (ia : T → Option (Tensor Unit) → T → T × T × T)
        (mlpF : T → T × T × T) (lnF : T → T) (hs : T)
        (am : Option (Tensor Unit)) (eo : T) (edm : Option (Tensor Unit))
        (dp : T → T),
        self.drop_path = some dp →
        self.layer_type = "decoder" →
        am.any (fun m => !(m.dtype == DType.bool)) = false →
        @TransformerLayer.forward T inst self training is_autocast cast bdaT bdaI
            gbda dropoutF sa ia mlpF lnF hs am eo edm
          = Except.ok (
              let hs2 := if is_autocast then cast hs else hs
              let sao := sa hs2 am
              let residual :=
                if self.apply_residual_connection_post_layernorm
                    && !self.output_layernorm
                then sao.2.2 else hs2
              let f :=
                if self.bias_dropout_fusion then
                  (if training then bdaT else bdaI)
                else gbda training
              let bda_output :=
                residual + dp (dropoutF (sao.1 + sao.2.1) self.hidden_dropout training)
              let iao := ia bda_output edm eo
              let residual2 :=
                if self.apply_residual_connection_post_layernorm
                then iao.2.2 else bda_output
              let bda_output2 := f iao.1 iao.2.1 residual2 self.hidden_dropout
              let mo := mlpF bda_output2
              let residual3 :=
                if self.apply_residual_connection_post_layernorm
                then mo.2.2 else bda_output2
              let output :=
                residual3 + dp (dropoutF (mo.1 + mo.2.1) self.hidden_dropout training)
              if self.output_layernorm then lnF output else output)) := by
  constructor
  · intro T env ln maskty arpl oln lt rate dpf hdrop fq fw cfg hrate h
    unfold TransformerLayer.init at h
    split at h
    · exact absurd h (by simp)
    · split at h
      · exact absurd h (by simp)
      · split at h
        · exact absurd h (by simp)
        · cases h
          simp [if_pos hrate]
  · intro T inst self training is_autocast cast bdaT bdaI gbda dropoutF sa ia
      mlpF lnF hs am eo edm dp hdp hdec hmask
    unfold TransformerLayer.forward
    simp only [hdp, hdec, hmask]
    simp

/-- C7 witness: a concrete decoder configuration with drop-path rate 1
takes the bypass route on the self-attention and MLP sub-blocks and the
fused route on cross-attention. -/
theorem c7_drop_path_routing_witness :
    ((0 : ℚ) < 1)
    ∧ (TransformerLayer.init ℚ 1 none ("causal") false false ("decoder") 1
          (fun r x => x + r) 0 true false
        = Except.ok (TransformerLayer.mk true none false ("decoder") false 0
            (some ((fun (r : ℚ) (x : ℚ) => x + r) 1))))
    ∧ (TransformerLayer.mk true none false ("decoder") false 0
          (some ((fun (r : ℚ) (x : ℚ) => x + r) 1))).drop_path
        = some ((fun (r : ℚ) (x : ℚ) => x + r) 1)
    ∧ ((TransformerLayer.mk (T := ℚ) true none false ("decoder") false 0
          (some (fun x => x + 100))).drop_path = some (fun (x : ℚ) => x + 100))
    ∧ ((TransformerLayer.mk (T := ℚ) true none false ("decoder") false 0
          (some (fun x => x + 100))).layer_type = "decoder")
    ∧ ((none : Option (Tensor Unit)).any (fun m => !(m.dtype == DType.bool))
        = false)
    ∧ (@TransformerLayer.forward ℚ _ (TransformerLayer.mk true none false
          ("decoder") false 0 (some (fun x => x + 100))) true false (fun x => x)
          (fun o b r p => o + b + r + p) (fun o b r p => o + b + r - p)
          (fun _ o b r _ => o + b + r) (fun x _ _ => x * 2)
          (fun h _ => (h + 1, h + 2, h + 3)) (fun h _ e => (h * 2, e, h))
          (fun h => (h + 5, h + 6, h + 7)) (fun x => x * 3) 1 none 10 none).isOk
        = true := by
  refine ⟨by norm_num, ?hinit, ?hdp1, rfl, rfl, rfl, ?hfwd⟩
  case hinit =>
    norm_num [TransformerLayer.init, AttnMaskTypes, LayerTypes]
  case hdp1 =>
    exact c7_drop_path_routing.1 ℚ 1 none ("causal") false false ("decoder") 1
      (fun r x => x + r) 0 true false
      (TransformerLayer.mk true none false ("decoder") false 0
        (some ((fun (r : ℚ) (x : ℚ) => x + r) 1)))
      (by norm_num)
      (by norm_num [TransformerLayer.init, AttnMaskTypes, LayerTypes])
  case hfwd =>
    have h := c7_drop_path_routing.2 ℚ inferInstance
      (TransformerLayer.mk true none false ("decoder") false 0
        (some (fun x => x + 100))) true false (fun x => x)
      (fun o b r p => o + b + r + p) (fun o b r p => o + b + r - p)
      (fun _ o b r _ => o + b + r) (fun x _ _ => x * 2)
      (fun h _ => (h + 1, h + 2, h + 3)) (fun h _ e => (h * 2, e, h))
      (fun h => (h + 5, h + 6, h + 7)) (fun x => x * 3) 1 none 10 none
      (fun x => x + 100) rfl rfl rfl
    rw [h]
    rfl
